import Mathlib

/-!
# Verification of the CLEAjs solar coordinate-transform core

Shallow embedding of the disk-geometry and heliographic-transform code of the
repository.  JavaScript `Number` arithmetic is modelled over `ℝ`; the partial
JS operations `Math.atan2`, `%` (remainder) and the `while`-loop longitude
normalisation are given explicit real-valued denotations below, each documented
at its definition.

Embedded source files:
* `src/utils/solarCalculations.js` — namespace `SolarCalc`
* `src/components/SidebarControls.js` — namespace `Sidebar`
* `src/pages/index.js` (`handleSelectionMade`) — namespace `IndexPage`
-/

open Real

/-- `{cx, cy, radius}` — solar disk centre and radius in pixels
(`solarData.sun_params` in `solarCalculations.js`). -/
structure SunParams where
  cx : ℝ
  cy : ℝ
  radius : ℝ


/-- `{B0, L0, P_ANGLE}` — orientation metadata in degrees
(`solarData.header` in `solarCalculations.js`). -/
structure Header where
  B0 : ℝ
  L0 : ℝ
  P_ANGLE : ℝ


/-- The `solarData` argument of `calculateHeliographicCoordinates` in
`solarCalculations.js`: an object with `sun_params` and `header` fields. -/
structure SolarData where
  sun_params : SunParams
  header : Header

/-- `{latitude, longitude, rho}` — the numeric result object of both
`calculateHeliographicCoordinates` implementations. -/
structure HelioResult where
  latitude : ℝ
  longitude : ℝ
  rho : ℝ


/-- `degreesToRadians` helper (both files): `degrees * Math.PI / 180`. -/
noncomputable def degreesToRadians (degrees : ℝ) : ℝ := degrees * Real.pi / 180

/-- `radiansToDegrees` helper (both files): `radians * 180 / Math.PI`. -/
noncomputable def radiansToDegrees (radians : ℝ) : ℝ := radians * 180 / Real.pi

/-- `clamp` helper (both files): `Math.min(Math.max(value, min), max)`. -/
noncomputable def clamp (value lo hi : ℝ) : ℝ := min (max value lo) hi

/-- Denotation of JavaScript `Math.atan2(y, x)` over `ℝ` (angle of the point
`(x, y)` in `(-π, π]`; `atan2 0 0 = 0`, matching JS `Math.atan2(0, 0)`;
`ℝ` has no signed zero, so the JS `-0` cases do not arise). -/
noncomputable def atan2 (y x : ℝ) : ℝ :=
  if 0 < x then Real.arctan (y / x)
  else if x < 0 then
    (if 0 ≤ y then Real.arctan (y / x) + Real.pi else Real.arctan (y / x) - Real.pi)
  else
    (if 0 < y then Real.pi / 2 else if y < 0 then -(Real.pi / 2) else 0)

/-- Denotation of the longitude-normalisation loop of `solarCalculations.js`
(`while (L < 0) L += 360; while (L >= 360) L -= 360;`): the loop adds or
subtracts `360` until the value lies in `[0, 360)`, i.e. it returns the unique
representative of `L` modulo `360` in `[0, 360)`, which is
`L - 360 * ⌊L / 360⌋`.  `normalize360_spec` below certifies this
characterisation. -/
noncomputable def normalize360 (L : ℝ) : ℝ := L - 360 * (⌊L / 360⌋ : ℝ)

/-- Truncation toward zero, the rounding used by the JavaScript `%` operator. -/
noncomputable def jsTrunc (t : ℝ) : ℤ := if 0 ≤ t then ⌊t⌋ else ⌈t⌉

/-- Denotation of JavaScript `a % b` on finite numbers:
`a - b * trunc(a / b)` (remainder with the sign of the dividend). -/
noncomputable def jsRem (a b : ℝ) : ℝ := a - b * (jsTrunc (a / b) : ℝ)

namespace SolarCalc

/-- `calculateHeliographicCoordinates(x, y, solarData)` from
`src/utils/solarCalculations.js`: translates the click to disk-centred
coordinates, computes `rho`, returns `null` (here `none`) when `rho > 1`,
otherwise the Carrington latitude/longitude with the longitude normalised by
the `±360` loop (`normalize360`). -/
noncomputable def calculateHeliographicCoordinates (x y : ℝ) (solarData : SolarData) :
    Option HelioResult :=
  let cx := solarData.sun_params.cx
  let cy := solarData.sun_params.cy
  let radius := solarData.sun_params.radius
  let dx := x - cx
  let dy := cy - y
  let rho := Real.sqrt (dx * dx + dy * dy) / radius
  if rho > 1 then none
  else
    let theta := atan2 dx dy * 180 / Real.pi - solarData.header.P_ANGLE
    let B0rad := degreesToRadians solarData.header.B0
    let sinB := Real.cos (rho * Real.pi / 2) * Real.sin B0rad +
        Real.sin (rho * Real.pi / 2) * Real.cos B0rad * Real.cos (degreesToRadians theta)
    let B := radiansToDegrees (Real.arcsin (clamp sinB (-1) 1))
    let yTerm := Real.sin (rho * Real.pi / 2) * Real.sin (degreesToRadians theta)
    let xTerm := Real.sin (rho * Real.pi / 2) * Real.cos (degreesToRadians theta) *
        Real.sin B0rad - Real.cos (rho * Real.pi / 2) * Real.cos B0rad
    let L := radiansToDegrees (atan2 yTerm xTerm) + solarData.header.L0
    some ⟨B, normalize360 L, rho⟩

/-- `determineImageCenterAndRadius(image, assumeCentered, contourThreshold)`
from `src/utils/solarCalculations.js`: both branches return the centred
estimate `{width/2, height/2, min(width, height) * 0.45}`; the `else` branch
only logs the threshold (a side effect outside the returned value). -/
noncomputable def determineImageCenterAndRadius (width height : ℝ)
    (assumeCentered : Bool) (contourThreshold : ℝ) : SunParams :=
  if assumeCentered then
    ⟨width / 2, height / 2, min width height * 0.45⟩
  else
    -- the stub logs `contourThreshold` and returns the same estimate
    let _ := contourThreshold
    ⟨width / 2, height / 2, min width height * 0.45⟩

/-- `isPointOnSun(x, y, centerX, centerY, radius, radiusCorrection = 1.0)`
from `src/utils/solarCalculations.js`: `distance <= radius * radiusCorrection`
(no additional tolerance factor). -/
def isPointOnSun (x y centerX centerY radius radiusCorrection : ℝ) : Prop :=
  Real.sqrt ((x - centerX) * (x - centerX) + (y - centerY) * (y - centerY)) ≤
    radius * radiusCorrection

end SolarCalc

namespace Sidebar

/-- `calculateHeliographicCoordinates(x, y, sunParams, header)` from
`src/components/SidebarControls.js`: same Carrington formulas as the
`solarCalculations.js` version, but the longitude is normalised by
`((L % 360) + 360) % 360` with the JS remainder (`jsRem`).
(The source also binds `const L0 = degreesToRadians(header.L0)`, which it
never uses; the unused binding is kept here.) -/
noncomputable def calculateHeliographicCoordinates (x y : ℝ) (sunParams : SunParams)
    (header : Header) : Option HelioResult :=
  let dx := x - sunParams.cx
  let dy := sunParams.cy - y
  let rho := Real.sqrt (dx * dx + dy * dy) / sunParams.radius
  if rho > 1 then none
  else
    let theta := atan2 dx dy * 180 / Real.pi - header.P_ANGLE
    let B0 := degreesToRadians header.B0
    let _L0 := degreesToRadians header.L0
    let thetaRad := degreesToRadians theta
    let rhoRad := rho * Real.pi / 2
    let sinB := Real.cos rhoRad * Real.sin B0 +
        Real.sin rhoRad * Real.cos B0 * Real.cos thetaRad
    let B := radiansToDegrees (Real.arcsin (clamp sinB (-1) 1))
    let yTerm := Real.sin rhoRad * Real.sin thetaRad
    let xTerm := Real.sin rhoRad * Real.cos thetaRad * Real.sin B0 -
        Real.cos rhoRad * Real.cos B0
    let L := radiansToDegrees (atan2 yTerm xTerm) + header.L0
    some ⟨B, jsRem (jsRem L 360 + 360) 360, rho⟩

/-- `determineImageCenterAndRadius(image, assumeCentered, contourThreshold)`
from `src/components/SidebarControls.js`: always returns the centred estimate;
the flag only selects whether the threshold is logged. -/
noncomputable def determineImageCenterAndRadius (width height : ℝ)
    (assumeCentered : Bool) (contourThreshold : ℝ) : SunParams :=
  let _ := assumeCentered
  let _ := contourThreshold
  ⟨width / 2, height / 2, min width height * 0.45⟩

/-- `isPointOnSun(x, y, centerX, centerY, radius, radiusCorrection=1, xOffset=0,
yOffset=0)` from `src/components/SidebarControls.js`:
`Math.hypot(x - adjX, y - adjY) <= adjR * 1.05` with
`adjR = radius * radiusCorrection`. -/
def isPointOnSun (x y centerX centerY radius radiusCorrection xOffset yOffset : ℝ) : Prop :=
  Real.sqrt ((x - (centerX + xOffset)) ^ 2 + (y - (centerY + yOffset)) ^ 2) ≤
    radius * radiusCorrection * 1.05

end Sidebar

namespace IndexPage

/-- Dynamic error raised by the JavaScript runtime. -/
inductive JsError where
  | typeError

/-- A JavaScript value as far as the call in `handleSelectionMade` is
concerned: either a plain number or a proper `solarData` object. -/
inductive JsValue where
  | num (v : ℝ)
  | solarDataVal (sd : SolarData)

/-- JS property access `v.sun_params`: `undefined` (here `none`) unless `v`
is a `solarData` object carrying the field. -/
def getSunParamsField : JsValue → Option SunParams
  | JsValue.num _ => none
  | JsValue.solarDataVal sd => some sd.sun_params

/-- JS property access `v.header`. -/
def getHeaderField : JsValue → Option Header
  | JsValue.num _ => none
  | JsValue.solarDataVal sd => some sd.header

/-- The imported `calculateHeliographicCoordinates` of
`src/utils/solarCalculations.js` under JavaScript calling semantics: the
function destructures `solarData.sun_params` and `solarData.header`;
destructuring `undefined` throws a `TypeError`, otherwise the static body
runs. -/
noncomputable def calculateHeliographicCoordinatesJs (x y : ℝ) (solarData : JsValue) :
    Except JsError (Option HelioResult) :=
  match getSunParamsField solarData, getHeaderField solarData with
  | some sp, some hd => Except.ok (SolarCalc.calculateHeliographicCoordinates x y ⟨sp, hd⟩)
  | _, _ => Except.error JsError.typeError

open Classical in
/-- The coordinate-computing slice of `handleSelectionMade` in
`src/pages/index.js` (lines 436–477): the inline boundary check
`distance <= adjustedRadius * 1.05` (skippable via `disableBoundaryCheck`),
the rescaling to original coordinates, and then the call
`calculateHeliographicCoordinates(origX, origY, sunParams.cx, sunParams.cy,
sunParams.radius, obsTime)`.  JavaScript drops the surplus positional
arguments of the three-parameter import, so the `solarData` parameter is
bound to the number `sunParams.cx`.  Returns `none` when the early return is
taken (no call happens), otherwise the call's outcome. -/
noncomputable def handleSelectionMadeCall (selX selY : ℝ) (adjusted sunP : SunParams)
    (imageScale : ℝ) (disableBoundaryCheck : Bool) :
    Option (Except JsError (Option HelioResult)) :=
  let distance := Real.sqrt ((selX - adjusted.cx) ^ 2 + (selY - adjusted.cy) ^ 2)
  let isOnSun := distance ≤ adjusted.radius * 1.05
  if ¬ disableBoundaryCheck ∧ ¬ isOnSun then none
  else
    let origX := selX / imageScale
    let origY := selY / imageScale
    some (calculateHeliographicCoordinatesJs origX origY (JsValue.num sunP.cx))

end IndexPage

-- Supporting lemmas ---------------------------------------------------------

theorem atan2_zero_zero : atan2 0 0 = 0 := by
  simp [atan2]

theorem atan2_zero_neg {x : ℝ} (hx : x < 0) : atan2 0 x = Real.pi := by
  unfold atan2
  rw [if_neg (by linarith), if_pos hx, if_pos le_rfl]
  simp

/-- `normalize360` lands in `[0, 360)` and differs from its argument by an
integer multiple of `360`: exactly the postcondition of the `±360` loop. -/
theorem normalize360_spec (L : ℝ) :
    0 ≤ normalize360 L ∧ normalize360 L < 360 ∧
      ∃ k : ℤ, normalize360 L = L - 360 * (k : ℝ) := by
  unfold normalize360
  refine ⟨?_, ?_, ⟨⌊L / 360⌋, rfl⟩⟩
  · have h := Int.fract_nonneg (L / 360)
    have : Int.fract (L / 360) = L / 360 - ⌊L / 360⌋ := rfl
    nlinarith [h, this]
  · have h := Int.fract_lt_one (L / 360)
    have : Int.fract (L / 360) = L / 360 - ⌊L / 360⌋ := rfl
    nlinarith [h, this]

theorem jsTrunc_nonneg_eq_floor {t : ℝ} (h : 0 ≤ t) : jsTrunc t = ⌊t⌋ := by
  simp [jsTrunc, h]

theorem jsTrunc_neg_eq_ceil {t : ℝ} (h : t < 0) : jsTrunc t = ⌈t⌉ := by
  simp [jsTrunc, not_le.mpr h]

theorem jsRem_eq_mul {a b : ℝ} (hb : b ≠ 0) :
    jsRem a b = b * (a / b - (jsTrunc (a / b) : ℝ)) := by
  unfold jsRem
  field_simp

/-- For a positive modulus the JS remainder lies in `(-b, b)`. -/
theorem jsRem_bounds {a b : ℝ} (hb : 0 < b) : -b < jsRem a b ∧ jsRem a b < b := by
  rw [jsRem_eq_mul hb.ne.symm]
  by_cases h : 0 ≤ a / b
  · rw [jsTrunc_nonneg_eq_floor h]
    have h1 : (0:ℝ) ≤ a / b - ⌊a / b⌋ := by
      have := Int.floor_le (a / b); linarith
    have h2 : a / b - (⌊a / b⌋ : ℝ) < 1 := by
      have := Int.lt_floor_add_one (a / b); linarith
    constructor
    · nlinarith
    · nlinarith
  · push_neg at h
    rw [jsTrunc_neg_eq_ceil h]
    have h1 : a / b - (⌈a / b⌉ : ℝ) ≤ 0 := by
      have := Int.le_ceil (a / b); linarith
    have h2 : (-1:ℝ) < a / b - ⌈a / b⌉ := by
      have := Int.ceil_lt_add_one (a / b); linarith
    constructor
    · nlinarith
    · nlinarith

/-- For a positive modulus and non-negative dividend the JS remainder is
non-negative (it coincides with the floor-based remainder there). -/
theorem jsRem_nonneg {a b : ℝ} (hb : 0 < b) (ha : 0 ≤ a) : 0 ≤ jsRem a b := by
  rw [jsRem_eq_mul hb.ne.symm]
  have h : 0 ≤ a / b := div_nonneg ha hb.le
  rw [jsTrunc_nonneg_eq_floor h]
  have h1 : (0:ℝ) ≤ a / b - ⌊a / b⌋ := by
    have := Int.floor_le (a / b); linarith
  nlinarith

/-- The Sidebar normalisation `((L % 360) + 360) % 360` lands in `[0, 360)`. -/
theorem sidebarNorm_bounds (L : ℝ) :
    0 ≤ jsRem (jsRem L 360 + 360) 360 ∧ jsRem (jsRem L 360 + 360) 360 < 360 := by
  have h360 : (0:ℝ) < 360 := by norm_num
  have hb := jsRem_bounds (a := L) h360
  have hpos : 0 ≤ jsRem L 360 + 360 := by linarith [hb.1]
  exact ⟨jsRem_nonneg h360 hpos, (jsRem_bounds (a := jsRem L 360 + 360) h360).2⟩

theorem degreesToRadians_zero : degreesToRadians 0 = 0 := by
  simp [degreesToRadians]

theorem radiansToDegrees_zero : radiansToDegrees 0 = 0 := by
  simp [radiansToDegrees]

theorem radiansToDegrees_pi : radiansToDegrees Real.pi = 180 := by
  unfold radiansToDegrees
  field_simp

theorem floor_half : ⌊(180:ℝ) / 360⌋ = 0 := by
  rw [Int.floor_eq_iff]
  norm_num

theorem floor_three_halves : ⌊((180:ℝ) + 360) / 360⌋ = 1 := by
  rw [Int.floor_eq_iff]
  norm_num

theorem normalize360_at_180 : normalize360 180 = 180 := by
  unfold normalize360
  rw [floor_half]
  norm_num

theorem sidebarNorm_at_180 : jsRem (jsRem 180 360 + 360) 360 = 180 := by
  have h1 : jsRem 180 360 = 180 := by
    unfold jsRem
    rw [jsTrunc_nonneg_eq_floor (by norm_num), floor_half]
    norm_num
  rw [h1]
  unfold jsRem
  rw [jsTrunc_nonneg_eq_floor (by norm_num), floor_three_halves]
  norm_num

/-- Evaluation of the `solarCalculations.js` transform at the exact disk
centre of the spec's scenario geometry: the code yields longitude `180`,
latitude `0`, `rho = 0`. -/
theorem solarCalc_center_eval :
    SolarCalc.calculateHeliographicCoordinates 400 400 ⟨⟨400, 400, 350⟩, ⟨0, 0, 0⟩⟩ =
      some ⟨0, 180, 0⟩ := by
  unfold SolarCalc.calculateHeliographicCoordinates
  norm_num [atan2_zero_zero, degreesToRadians, radiansToDegrees_zero,
    radiansToDegrees_pi, clamp, Real.arcsin_zero, atan2_zero_neg, normalize360_at_180]

/-- Evaluation of the `SidebarControls.js` transform at the same centre
point: identical numeric outcome. -/
theorem sidebar_center_eval :
    Sidebar.calculateHeliographicCoordinates 400 400 ⟨400, 400, 350⟩ ⟨0, 0, 0⟩ =
      some ⟨0, 180, 0⟩ := by
  unfold Sidebar.calculateHeliographicCoordinates
  norm_num [atan2_zero_zero, degreesToRadians, radiansToDegrees_zero,
    radiansToDegrees_pi, clamp, Real.arcsin_zero, atan2_zero_neg, sidebarNorm_at_180]

theorem clamp_sin (v : ℝ) : clamp (Real.sin v) (-1) 1 = Real.sin v := by
  unfold clamp
  rw [max_eq_left (Real.neg_one_le_sin v), min_eq_left (Real.sin_le_one v)]

theorem radiansToDegrees_degreesToRadians (d : ℝ) :
    radiansToDegrees (degreesToRadians d) = d := by
  unfold radiansToDegrees degreesToRadians
  field_simp

/-- At the exact centre point (`x = cx`, `y = cy`) the `solarCalculations.js`
transform yields a result with `rho = 0` and `latitude = B0` whenever
`B0 ∈ [-90, 90]`. -/
theorem solarCalc_center_general (sp : SunParams) (hd : Header)
    (h1 : -90 ≤ hd.B0) (h2 : hd.B0 ≤ 90) :
    ∃ r : HelioResult,
      SolarCalc.calculateHeliographicCoordinates sp.cx sp.cy ⟨sp, hd⟩ = some r ∧
        r.rho = 0 ∧ r.latitude = hd.B0 := by
  have hpi := Real.pi_pos
  have hb1 : -(Real.pi / 2) ≤ degreesToRadians hd.B0 := by
    unfold degreesToRadians; nlinarith
  have hb2 : degreesToRadians hd.B0 ≤ Real.pi / 2 := by
    unfold degreesToRadians; nlinarith
  unfold SolarCalc.calculateHeliographicCoordinates
  norm_num [atan2_zero_zero, clamp_sin, Real.arcsin_sin hb1 hb2,
    radiansToDegrees_degreesToRadians]

/-- Same centre-point behaviour for the `SidebarControls.js` transform. -/
theorem sidebar_center_general (sp : SunParams) (hd : Header)
    (h1 : -90 ≤ hd.B0) (h2 : hd.B0 ≤ 90) :
    ∃ r : HelioResult,
      Sidebar.calculateHeliographicCoordinates sp.cx sp.cy sp hd = some r ∧
        r.rho = 0 ∧ r.latitude = hd.B0 := by
  have hpi := Real.pi_pos
  have hb1 : -(Real.pi / 2) ≤ degreesToRadians hd.B0 := by
    unfold degreesToRadians; nlinarith
  have hb2 : degreesToRadians hd.B0 ≤ Real.pi / 2 := by
    unfold degreesToRadians; nlinarith
  unfold Sidebar.calculateHeliographicCoordinates
  norm_num [atan2_zero_zero, clamp_sin, Real.arcsin_sin hb1 hb2,
    radiansToDegrees_degreesToRadians]

theorem clamp_mem (v lo hi : ℝ) (h : lo ≤ hi) :
    lo ≤ clamp v lo hi ∧ clamp v lo hi ≤ hi := by
  unfold clamp
  exact ⟨le_min (le_max_right v lo) h, min_le_right _ hi⟩

theorem radiansToDegrees_arcsin_mem (v : ℝ) :
    -90 ≤ radiansToDegrees (Real.arcsin v) ∧ radiansToDegrees (Real.arcsin v) ≤ 90 := by
  have hpi := Real.pi_pos
  have hl := Real.neg_pi_div_two_le_arcsin v
  have hr := Real.arcsin_le_pi_div_two v
  unfold radiansToDegrees
  constructor
  · rw [le_div_iff hpi]
    nlinarith
  · rw [div_le_iff hpi]
    nlinarith

-- Claim theorems -------------------------------------------------------------

/-- C1: for every geometry with `radius > 0` and every pixel point whose
computed `rho` (Euclidean distance from the centre divided by the radius) is
strictly greater than `1`, both implementations of
`calculateHeliographicCoordinates` return the off-disk sentinel `null`
(`none`), never a numeric result. -/
theorem offDisk_returns_none (sp : SunParams) (hd : Header) (x y : ℝ)
    (hrad : 0 < sp.radius)
    (hrho : Real.sqrt ((x - sp.cx) * (x - sp.cx) + (sp.cy - y) * (sp.cy - y)) /
      sp.radius > 1) :
    SolarCalc.calculateHeliographicCoordinates x y ⟨sp, hd⟩ = none ∧
      Sidebar.calculateHeliographicCoordinates x y sp hd = none := by
  constructor
  · simp only [SolarCalc.calculateHeliographicCoordinates]
    exact if_pos hrho
  · simp only [Sidebar.calculateHeliographicCoordinates]
    exact if_pos hrho

/-- Witness for C1 at the spec scenario geometry and the far-outside point
`x = cx + 2 * radius`. -/
theorem offDisk_returns_none_witness :
    (0:ℝ) < 350 ∧
      SolarCalc.calculateHeliographicCoordinates 1100 400 ⟨⟨400, 400, 350⟩, ⟨0, 0, 0⟩⟩ =
        none ∧
      Sidebar.calculateHeliographicCoordinates 1100 400 ⟨400, 400, 350⟩ ⟨0, 0, 0⟩ = none := by
  have hs : Real.sqrt (((1100:ℝ) - 400) * (1100 - 400) + (400 - 400) * (400 - 400)) /
      (350:ℝ) > 1 := by
    have h7 : Real.sqrt (((1100:ℝ) - 400) * (1100 - 400) + (400 - 400) * (400 - 400)) =
        700 := by
      rw [show ((1100:ℝ) - 400) * (1100 - 400) + (400 - 400) * (400 - 400) = 700 ^ 2 by
        norm_num]
      exact Real.sqrt_sq (by norm_num)
    rw [h7]
    norm_num
  have h := offDisk_returns_none ⟨400, 400, 350⟩ ⟨0, 0, 0⟩ 1100 400 (by norm_num) hs
  exact ⟨by norm_num, h.1, h.2⟩

/-- C3: for every input on which a result is produced, the longitude of the
result lies in `[0, 360)`, in both implementations (the `±360` loop and the
positive-modulo expression both establish the normalisation). -/
theorem longitude_in_range (sp : SunParams) (hd : Header) (x y : ℝ) :
    (∀ r, SolarCalc.calculateHeliographicCoordinates x y ⟨sp, hd⟩ = some r →
      0 ≤ r.longitude ∧ r.longitude < 360) ∧
    (∀ r, Sidebar.calculateHeliographicCoordinates x y sp hd = some r →
      0 ≤ r.longitude ∧ r.longitude < 360) := by
  constructor
  · intro r hr
    simp only [SolarCalc.calculateHeliographicCoordinates] at hr
    split at hr
    · exact absurd hr (by simp)
    · rw [Option.some.injEq] at hr
      subst hr
      exact ⟨(normalize360_spec _).1, (normalize360_spec _).2.1⟩
  · intro r hr
    simp only [Sidebar.calculateHeliographicCoordinates] at hr
    split at hr
    · exact absurd hr (by simp)
    · rw [Option.some.injEq] at hr
      subst hr
      exact ⟨(sidebarNorm_bounds _).1, (sidebarNorm_bounds _).2⟩

/-- Witness for C3 at the centre of the spec scenario geometry, where both
implementations return longitude `180 ∈ [0, 360)`. -/
theorem longitude_in_range_witness :
    (0 ≤ (HelioResult.mk 0 180 0).longitude ∧ (HelioResult.mk 0 180 0).longitude < 360) ∧
      (0 ≤ (HelioResult.mk 0 180 0).longitude ∧
        (HelioResult.mk 0 180 0).longitude < 360) :=
  ⟨(longitude_in_range ⟨400, 400, 350⟩ ⟨0, 0, 0⟩ 400 400).1 ⟨0, 180, 0⟩
      solarCalc_center_eval,
    (longitude_in_range ⟨400, 400, 350⟩ ⟨0, 0, 0⟩ 400 400).2 ⟨0, 180, 0⟩
      sidebar_center_eval⟩

/-- C9: whenever either implementation returns a non-null result (given a
positive radius), the result satisfies `rho ∈ [0, 1]` and
`latitude ∈ [-90, 90]`. -/
theorem result_rho_latitude_invariant (sp : SunParams) (hd : Header) (x y : ℝ)
    (hrad : 0 < sp.radius) :
    (∀ r, SolarCalc.calculateHeliographicCoordinates x y ⟨sp, hd⟩ = some r →
      0 ≤ r.rho ∧ r.rho ≤ 1 ∧ -90 ≤ r.latitude ∧ r.latitude ≤ 90) ∧
    (∀ r, Sidebar.calculateHeliographicCoordinates x y sp hd = some r →
      0 ≤ r.rho ∧ r.rho ≤ 1 ∧ -90 ≤ r.latitude ∧ r.latitude ≤ 90) := by
  constructor
  · intro r hr
    simp only [SolarCalc.calculateHeliographicCoordinates] at hr
    split at hr
    · exact absurd hr (by simp)
    · rename_i hguard
      rw [Option.some.injEq] at hr
      subst hr
      exact ⟨div_nonneg (Real.sqrt_nonneg _) hrad.le, not_lt.mp hguard,
        (radiansToDegrees_arcsin_mem _).1, (radiansToDegrees_arcsin_mem _).2⟩
  · intro r hr
    simp only [Sidebar.calculateHeliographicCoordinates] at hr
    split at hr
    · exact absurd hr (by simp)
    · rename_i hguard
      rw [Option.some.injEq] at hr
      subst hr
      exact ⟨div_nonneg (Real.sqrt_nonneg _) hrad.le, not_lt.mp hguard,
        (radiansToDegrees_arcsin_mem _).1, (radiansToDegrees_arcsin_mem _).2⟩

/-- Witness for C9 at the centre of the spec scenario geometry. -/
theorem result_rho_latitude_invariant_witness :
    0 ≤ (HelioResult.mk 0 180 0).rho ∧ (HelioResult.mk 0 180 0).rho ≤ 1 ∧
      -90 ≤ (HelioResult.mk 0 180 0).latitude ∧ (HelioResult.mk 0 180 0).latitude ≤ 90 :=
  (result_rho_latitude_invariant ⟨400, 400, 350⟩ ⟨0, 0, 0⟩ 400 400 (by norm_num)).1
    ⟨0, 180, 0⟩ solarCalc_center_eval

/-- C2 (amended): for every valid geometry (`radius > 0`, `b0Deg ∈ [-90, 90]`)
both transforms at the exact centre point yield `rho = 0` and
`latitudeDeg = b0Deg`; at the scenario geometry
`{cx:400, cy:400, radius:350, B0:0, L0:0, P:0}` the point `(400, 400)` yields
`{longitude: 180, latitude: 0, rho: 0}` (the code computes
`atan2(0, -cos B0) = π` at the centre, so the longitude is `l0 + 180`
normalised, not `l0`). -/
theorem center_maps_to_subobserver (sp : SunParams) (hd : Header)
    (hrad : 0 < sp.radius) (h1 : -90 ≤ hd.B0) (h2 : hd.B0 ≤ 90) :
    (∃ r, SolarCalc.calculateHeliographicCoordinates sp.cx sp.cy ⟨sp, hd⟩ = some r ∧
        r.rho = 0 ∧ r.latitude = hd.B0) ∧
    (∃ r, Sidebar.calculateHeliographicCoordinates sp.cx sp.cy sp hd = some r ∧
        r.rho = 0 ∧ r.latitude = hd.B0) ∧
    SolarCalc.calculateHeliographicCoordinates 400 400 ⟨⟨400, 400, 350⟩, ⟨0, 0, 0⟩⟩ =
      some ⟨0, 180, 0⟩ :=
  ⟨solarCalc_center_general sp hd h1 h2, sidebar_center_general sp hd h1 h2,
    solarCalc_center_eval⟩

/-- Counterexample to C2 as stated: at the scenario geometry the centre point
returns longitude `180`, not `0`. -/
theorem center_longitude_is_180 :
    SolarCalc.calculateHeliographicCoordinates 400 400 ⟨⟨400, 400, 350⟩, ⟨0, 0, 0⟩⟩ =
        some ⟨0, 180, 0⟩ ∧ (180 : ℝ) ≠ 0 :=
  ⟨solarCalc_center_eval, by norm_num⟩

/-- Witness for C2 (amended) at the scenario geometry. -/
theorem center_maps_to_subobserver_witness :
    ∃ r, SolarCalc.calculateHeliographicCoordinates 400 400
        ⟨⟨400, 400, 350⟩, ⟨0, 0, 0⟩⟩ = some r ∧ r.rho = 0 ∧ r.latitude = 0 :=
  (center_maps_to_subobserver ⟨400, 400, 350⟩ ⟨0, 0, 0⟩ (by norm_num) (by norm_num)
    (by norm_num)).1

/-- C4 (amended): the geometry resolver performs no validation and never
fails: for every image, including ones with non-positive dimensions, both
implementations return the centred estimate
`{width/2, height/2, min(width, height) * 0.45}`. -/
theorem resolver_never_fails (width height : ℝ) (b : Bool) (th : ℝ) :
    SolarCalc.determineImageCenterAndRadius width height b th =
        ⟨width / 2, height / 2, min width height * 0.45⟩ ∧
      Sidebar.determineImageCenterAndRadius width height b th =
        ⟨width / 2, height / 2, min width height * 0.45⟩ := by
  unfold SolarCalc.determineImageCenterAndRadius Sidebar.determineImageCenterAndRadius
  cases b <;> exact ⟨rfl, rfl⟩

/-- Counterexample to C4 as stated: resolving a `0×600` image yields the
geometry value `{cx:0, cy:300, radius:0}` (with non-positive radius), not an
`InvalidGeometry` error — the code has no failure path at all. -/
theorem resolver_accepts_zero_width :
    SolarCalc.determineImageCenterAndRadius 0 600 true 0.5 = ⟨0, 300, 0⟩ ∧
      (SolarCalc.determineImageCenterAndRadius 0 600 true 0.5).radius ≤ 0 := by
  have h : SolarCalc.determineImageCenterAndRadius 0 600 true 0.5 = ⟨0, 300, 0⟩ := by
    unfold SolarCalc.determineImageCenterAndRadius
    rw [if_pos rfl]
    rw [min_eq_left (by norm_num : (0:ℝ) ≤ 600)]
    norm_num
  exact ⟨h, by rw [h]⟩

/-- Witness for C4 (amended) at the `0×600` image. -/
theorem resolver_never_fails_witness :
    SolarCalc.determineImageCenterAndRadius 0 600 true 0.5 =
        ⟨0 / 2, 600 / 2, min 0 600 * 0.45⟩ ∧
      Sidebar.determineImageCenterAndRadius 0 600 true 0.5 =
        ⟨0 / 2, 600 / 2, min 0 600 * 0.45⟩ :=
  resolver_never_fails 0 600 true 0.5

/-- C6: with no trusted parameters in play, both resolver implementations
compute the fallback estimate `centerX = width/2`, `centerY = height/2`,
`radius = min(width, height) * 0.45` for every image; for an `800×600` image
this is exactly `{cx:400, cy:300, radius:270}`, whatever the detection flag
and threshold. -/
theorem fallback_geometry_estimate (width height : ℝ) (b bS : Bool) (th thS : ℝ) :
    (SolarCalc.determineImageCenterAndRadius width height b th =
        ⟨width / 2, height / 2, min width height * 0.45⟩ ∧
      Sidebar.determineImageCenterAndRadius width height bS thS =
        ⟨width / 2, height / 2, min width height * 0.45⟩) ∧
    (SolarCalc.determineImageCenterAndRadius 800 600 b th = ⟨400, 300, 270⟩ ∧
      Sidebar.determineImageCenterAndRadius 800 600 bS thS = ⟨400, 300, 270⟩) := by
  have hmin : min (800:ℝ) 600 = 600 := min_eq_right (by norm_num)
  unfold SolarCalc.determineImageCenterAndRadius Sidebar.determineImageCenterAndRadius
  refine ⟨⟨?_, rfl⟩, ?_, ?_⟩
  · cases b <;> rfl
  · cases b <;> · rw [hmin]; norm_num
  · rw [hmin]; norm_num

/-- C10: the detection-method flag has no effect: for every image and every
`contourThreshold`, both implementations return the same `{cx, cy, radius}`
whether `assumeCentered` is `true` or `false` (the contour branch is a stub
computing the identical centred estimate). -/
theorem detection_flag_irrelevant (width height th : ℝ) :
    SolarCalc.determineImageCenterAndRadius width height true th =
        SolarCalc.determineImageCenterAndRadius width height false th ∧
      Sidebar.determineImageCenterAndRadius width height true th =
        Sidebar.determineImageCenterAndRadius width height false th := by
  unfold SolarCalc.determineImageCenterAndRadius Sidebar.determineImageCenterAndRadius
  exact ⟨rfl, rfl⟩

/-- C5 (amended): the Sidebar `isPointOnSun` (hard-coded factor `1.05`)
accepts exactly the points with `rho ≤ 1.05` (distance over the
correction-adjusted radius), while the `solarCalculations.js` `isPointOnSun`
carries no tolerance factor and accepts exactly `rho ≤ 1`; the lenient gate is
independent of the strict `rho ≤ 1` gate inside the heliographic transform,
which returns `none` exactly when its `rho` exceeds `1`. -/
theorem lenient_gate_thresholds (x y cX cY radius rc xOff yOff : ℝ)
    (hr : 0 < radius * rc) :
    (Sidebar.isPointOnSun x y cX cY radius rc xOff yOff ↔
      Real.sqrt ((x - (cX + xOff)) ^ 2 + (y - (cY + yOff)) ^ 2) / (radius * rc) ≤ 1.05) ∧
    (SolarCalc.isPointOnSun x y cX cY radius rc ↔
      Real.sqrt ((x - cX) * (x - cX) + (y - cY) * (y - cY)) / (radius * rc) ≤ 1) ∧
    (∀ hd : Header,
      Real.sqrt ((x - cX) * (x - cX) + (cY - y) * (cY - y)) / radius > 1 →
        SolarCalc.calculateHeliographicCoordinates x y ⟨⟨cX, cY, radius⟩, hd⟩ = none) := by
  refine ⟨?_, ?_, ?_⟩
  · unfold Sidebar.isPointOnSun
    rw [div_le_iff hr]
    constructor <;> intro h <;> linarith
  · unfold SolarCalc.isPointOnSun
    rw [div_le_iff hr]
    constructor <;> intro h <;> linarith
  · intro hd hrho
    simp only [SolarCalc.calculateHeliographicCoordinates]
    exact if_pos hrho

/-- Counterexample to C5 as stated: the point at distance `102` from a disk of
radius `100` has `rho = 1.02 ≤ 1.05`, yet the `solarCalculations.js`
`isPointOnSun` (default `radiusCorrection = 1`) rejects it — that
implementation has no `1.05` tolerance. -/
theorem strict_gate_rejects_within_tolerance :
    ¬ SolarCalc.isPointOnSun 102 0 0 0 100 1 ∧
      Real.sqrt (((102:ℝ) - 0) * (102 - 0) + ((0:ℝ) - 0) * (0 - 0)) / (100 * 1) ≤ 1.05 := by
  have hs : Real.sqrt (((102:ℝ) - 0) * (102 - 0) + ((0:ℝ) - 0) * (0 - 0)) = 102 := by
    rw [show ((102:ℝ) - 0) * (102 - 0) + ((0:ℝ) - 0) * (0 - 0) = 102 ^ 2 by norm_num]
    exact Real.sqrt_sq (by norm_num)
  constructor
  · unfold SolarCalc.isPointOnSun
    rw [hs]
    norm_num
  · rw [hs]
    norm_num

/-- Witness for C5 (amended) on a disk of radius `100`. -/
theorem lenient_gate_thresholds_witness :
    (Sidebar.isPointOnSun 105 0 0 0 100 1 0 0 ↔
      Real.sqrt (((105:ℝ) - (0 + 0)) ^ 2 + ((0:ℝ) - (0 + 0)) ^ 2) / (100 * 1) ≤ 1.05) ∧
    (SolarCalc.isPointOnSun 105 0 0 0 100 1 ↔
      Real.sqrt (((105:ℝ) - 0) * (105 - 0) + ((0:ℝ) - 0) * (0 - 0)) / (100 * 1) ≤ 1) :=
  ⟨(lenient_gate_thresholds 105 0 0 0 100 1 0 0 (by norm_num)).1,
    (lenient_gate_thresholds 105 0 0 0 100 1 0 0 (by norm_num)).2.1⟩

/-- C7: the argument handed to `asin` in the latitude computation is always
the clamp of `sinB` to `[-1, 1]` — the clamp maps every real into `[-1, 1]`,
and whenever either transform produces a result its latitude is the arcsine
(in degrees) of such a clamped value, so the `asin` call never leaves its
domain. -/
theorem arcsin_argument_clamped (sp : SunParams) (hd : Header) (x y : ℝ) :
    (∀ v : ℝ, -1 ≤ clamp v (-1) 1 ∧ clamp v (-1) 1 ≤ 1) ∧
    (∀ r, SolarCalc.calculateHeliographicCoordinates x y ⟨sp, hd⟩ = some r →
      ∃ v, r.latitude = radiansToDegrees (Real.arcsin (clamp v (-1) 1))) ∧
    (∀ r, Sidebar.calculateHeliographicCoordinates x y sp hd = some r →
      ∃ v, r.latitude = radiansToDegrees (Real.arcsin (clamp v (-1) 1))) := by
  refine ⟨fun v => clamp_mem v (-1) 1 (by norm_num), ?_, ?_⟩
  · intro r hr
    simp only [SolarCalc.calculateHeliographicCoordinates] at hr
    split at hr
    · exact absurd hr (by simp)
    · rw [Option.some.injEq] at hr
      subst hr
      exact ⟨_, rfl⟩
  · intro r hr
    simp only [Sidebar.calculateHeliographicCoordinates] at hr
    split at hr
    · exact absurd hr (by simp)
    · rw [Option.some.injEq] at hr
      subst hr
      exact ⟨_, rfl⟩

/-- Witness for C7 at the centre of the spec scenario geometry. -/
theorem arcsin_argument_clamped_witness :
    (-1 ≤ clamp 0 (-1) 1 ∧ clamp 0 (-1) 1 ≤ 1) ∧
      ∃ v, (HelioResult.mk 0 180 0).latitude =
        radiansToDegrees (Real.arcsin (clamp v (-1) 1)) :=
  ⟨(arcsin_argument_clamped ⟨400, 400, 350⟩ ⟨0, 0, 0⟩ 400 400).1 0,
    (arcsin_argument_clamped ⟨400, 400, 350⟩ ⟨0, 0, 0⟩ 400 400).2.1 ⟨0, 180, 0⟩
      solarCalc_center_eval⟩

/-- C8: the call in `handleSelectionMade` passes six positional arguments to
the three-parameter import, binding `solarData` to the number
`sunParams.cx`; property access on that number yields `undefined`, whose
destructuring throws — so every selection that passes the boundary check makes
the call fail with a `TypeError` instead of producing coordinates. -/
theorem mismatched_call_raises_type_error (selX selY : ℝ) (adjusted sunP : SunParams)
    (imageScale : ℝ) (dis : Bool) (res : Except IndexPage.JsError (Option HelioResult))
    (h : IndexPage.handleSelectionMadeCall selX selY adjusted sunP imageScale dis =
      some res) :
    res = Except.error IndexPage.JsError.typeError := by
  simp only [IndexPage.handleSelectionMadeCall] at h
  split at h
  · exact absurd h (by simp)
  · rw [Option.some.injEq] at h
    subst h
    rfl

/-- Witness for C8: a selection at the disk centre passes the boundary check
and the coordinate call indeed returns the `TypeError` outcome. -/
theorem mismatched_call_raises_type_error_witness :
    ∃ res, IndexPage.handleSelectionMadeCall 400 400 ⟨400, 400, 350⟩ ⟨400, 400, 350⟩ 1
        false = some res ∧ res = Except.error IndexPage.JsError.typeError := by
  have heval : IndexPage.handleSelectionMadeCall 400 400 ⟨400, 400, 350⟩ ⟨400, 400, 350⟩ 1
      false = some (Except.error IndexPage.JsError.typeError) := by
    simp only [IndexPage.handleSelectionMadeCall]
    rw [if_neg]
    · rfl
    · norm_num
  exact ⟨_, heval,
    mismatched_call_raises_type_error 400 400 ⟨400, 400, 350⟩ ⟨400, 400, 350⟩ 1 false _
      heval⟩
